import Mathlib

/-!
Verification of the MySQL Connector/Python dialect layer of SQLAlchemy:
the JSON path/index formatters (`lib/sqlalchemy/dialects/mysql/json.py`)
and the `mysqlconnector` dialect (`lib/sqlalchemy/dialects/mysql/mysqlconnector.py`):
modulo-operator compilation, identifier escaping, connection-option
coercion (`create_connect_args`) and disconnect classification
(`is_disconnect`).

Strings are modelled through their character lists (`String.data`);
Python machine-level details that the code never relies on (arbitrary
precision of `int` aside) do not arise in these functions.
-/

namespace MySQLDialect

/-! ## Character-level string helpers

Python's `in` (substring containment), `str.replace`, `str.lower`, and
`int(...)` parsing, modelled on `List Char`. -/

/-- `leadsL pat s` is true when `pat` occurs at the very start of `s`
(Python `s.startswith(pat)`). -/
def leadsL : List Char → List Char → Bool
  | [], _ => true
  | _ :: _, [] => false
  | a :: as, b :: bs => a = b && leadsL as bs

/-- `occursIn pat s` is true when `pat` occurs contiguously anywhere in `s`
(Python `pat in s`). -/
def occursIn : List Char → List Char → Bool
  | pat, [] => leadsL pat []
  | pat, c :: rest => leadsL pat (c :: rest) || occursIn pat rest

/-- Python `s.replace(old, new)` for a non-empty pattern `p :: ps`:
replace non-overlapping occurrences left to right. -/
def replaceL (p : Char) (ps : List Char) (rep : List Char) : List Char → List Char
  | [] => []
  | c :: rest =>
    if leadsL (p :: ps) (c :: rest) then rep ++ replaceL p ps rep (rest.drop ps.length)
    else c :: replaceL p ps rep rest
termination_by s => s.length
decreasing_by
  · simp [List.length_drop]; omega
  · simp

/-- ASCII lower-casing of one character (Python `str.lower` restricted to
the ASCII option names that occur here). -/
def lowerChar (c : Char) : Char :=
  if 'A' ≤ c ∧ c ≤ 'Z' then Char.ofNat (c.toNat + 32) else c

/-- One decimal digit of Python `int(...)`. -/
def digitVal (c : Char) : Option Nat :=
  if '0' ≤ c ∧ c ≤ '9' then some (c.toNat - 48) else none

/-- Accumulator loop of decimal `Nat` parsing. -/
def parseNatGo (acc : Nat) : List Char → Option Nat
  | [] => some acc
  | c :: rest =>
    match digitVal c with
    | none => none
    | some d => parseNatGo (acc * 10 + d) rest

/-- Modelled from the spec: the integer coercion of `ConnectionOptionCoercer`
("integer: numeric parse; fails with a configuration error on unparseable
input") — `util.coerce_kw_type`'s `int(...)` call is outside this excerpt.
Decimal parse with optional leading minus; anything else is unparseable. -/
def parseIntL : List Char → Option Int
  | [] => none
  | '-' :: rest =>
    match rest with
    | [] => none
    | _ => (parseNatGo 0 rest).map (fun n => -(n : Int))
  | cs => (parseNatGo 0 cs).map (fun n => (n : Int))

/-! ## JSON path formatting (`dialects/mysql/json.py`) -/

/-- A step of a JSON path: an integer array index or a string object key. -/
inductive PathStep where
  | idx : Int → PathStep
  | key : String → PathStep
deriving DecidableEq

/-- `JSONIndexType._format_value`: a single-step accessor rooted at `$`.
`"$[%s]" % value` for an integer, `'$."%s"' % value` for a string key. -/
def JSONIndexType.format_value : PathStep → String
  | .idx i => "$[" ++ toString i ++ "]"
  | .key k => "$.\"" ++ k ++ "\""

/-- The fragment one step contributes inside `JSONPathType._format_value`:
`"[%s]" % elem` for an integer, `'."%s"' % elem` for a string key. -/
def pathFrag : PathStep → String
  | .idx i => "[" ++ toString i ++ "]"
  | .key k => ".\"" ++ k ++ "\""

/-- `JSONPathType._format_value`: `"$%s" % "".join([fragment per elem])`. -/
def JSONPathType.format_value (p : List PathStep) : String :=
  "$" ++ String.join (p.map pathFrag)

/-! ## Lemmas about the string helpers -/

theorem leadsL_decomp : ∀ (pat s : List Char), leadsL pat s = true →
    s = pat ++ s.drop pat.length := by
  intro pat
  induction pat with
  | nil => intro s _; simp
  | cons a as ih =>
    intro s h
    cases s with
    | nil => simp [leadsL] at h
    | cons b bs =>
      simp only [leadsL, Bool.and_eq_true, decide_eq_true_eq] at h
      obtain ⟨rfl, h2⟩ := h
      simpa using ih bs h2

/-- If the pattern occurs nowhere in `s`, replacement leaves `s` unchanged. -/
theorem replaceL_of_not_occurs (p : Char) (ps rep : List Char) :
    ∀ s : List Char, occursIn (p :: ps) s = false → replaceL p ps rep s = s := by
  intro s
  induction s with
  | nil => intro _; simp [replaceL]
  | cons c rest ih =>
    intro h
    simp only [occursIn, Bool.or_eq_false_iff] at h
    rw [replaceL, if_neg (by simp [h.1]), ih h.2]

theorem join_data : ∀ l : List String, (String.join l).data =
    (l.foldr (fun s acc => s ++ acc) "").data := by
  have go : ∀ (l : List String) (init : String),
      (l.foldl (fun r s => r ++ s) init).data =
        init.data ++ (l.foldr (fun s acc => s ++ acc) "").data := by
    intro l
    induction l with
    | nil => intro init; simp
    | cons s t ih =>
      intro init
      simp only [List.foldl_cons, List.foldr_cons, ih (init ++ s),
        String.data_append, List.append_assoc]
  intro l
  exact go l ""

theorem string_data_inj {a b : String} (h : a.data = b.data) : a = b :=
  congrArg String.mk h

/-! ## Claim theorems for the JSON formatters -/

/-- C3: single-step index formatting renders an integer step `i` as exactly
`$[i]` (decimal) and a quote-free string key `k` as exactly `$."k"`. -/
theorem c3_index_format :
    (∀ i : Int, JSONIndexType.format_value (.idx i) = "$[" ++ toString i ++ "]")
    ∧ (∀ k : String, '"' ∉ k.data →
        JSONIndexType.format_value (.key k) = "$." ++ "\"" ++ k ++ "\"") := by
  constructor
  · intro i; rfl
  · intro k _
    apply string_data_inj
    simp [JSONIndexType.format_value, String.data_append]

/-- C3 witness at `i = -2` and `k = "name"`. -/
theorem c3_index_format_witness :
    JSONIndexType.format_value (.idx (-2)) = "$[" ++ toString (-2 : Int) ++ "]"
    ∧ JSONIndexType.format_value (.key "name") = "$." ++ "\"" ++ "name" ++ "\"" :=
  ⟨c3_index_format.1 (-2), c3_index_format.2 "name" (by decide)⟩

/-- C2: on a non-empty path, full-path formatting is exactly `$` followed by
the per-step fragments concatenated in input order with no separator. -/
theorem c2_path_format (p : List PathStep) (hne : p ≠ []) :
    JSONPathType.format_value p =
      "$" ++ p.foldr (fun st acc => pathFrag st ++ acc) "" := by
  apply string_data_inj
  simp only [JSONPathType.format_value, String.data_append, join_data]
  induction p with
  | nil => rfl
  | cons st rest ih =>
    cases rest with
    | nil => simp
    | cons st2 rest2 =>
      simp only [List.map_cons, List.foldr_cons, String.data_append,
        List.append_cancel_left_eq] at ih ⊢
      exact ih (by simp)

/-- C2 witness on the mixed path `[key "a", idx 3]`. -/
theorem c2_path_format_witness :
    JSONPathType.format_value [.key "a", .idx 3] =
      "$" ++ [PathStep.key "a", PathStep.idx 3].foldr
        (fun st acc => pathFrag st ++ acc) "" :=
  c2_path_format [.key "a", .idx 3] (by simp)

/-- C10: full-path formatting is total on the empty path and returns `$`. -/
theorem c10_empty_path :
    JSONPathType.format_value ([] : List PathStep) = "$" := rfl

/-! ## `MySQLCompiler_mysqlconnector.visit_mod_binary` -/

/-- `visit_mod_binary`: `self.process(binary.left) + " % " + self.process(binary.right)`,
over the already-rendered operand strings. -/
def visit_mod_binary (left right : String) : String :=
  left ++ " % " ++ right

/-- C8: the modulo rewrite emits exactly the left text, a spaced single `%`,
and the right text; in particular the number of percent characters is the
operands' total plus one (no doubling, no function-call form). -/
theorem c8_mod_binary (x y : String) :
    visit_mod_binary x y = x ++ " % " ++ y
    ∧ (visit_mod_binary x y).data.count '%' =
        x.data.count '%' + y.data.count '%' + 1 := by
  refine ⟨rfl, ?_⟩
  have hm : (" % " : String).data = [' ', '%', ' '] := rfl
  simp [visit_mod_binary, String.data_append, List.count_append, hm,
    List.count_cons]
  omega

/-! ## `MySQLIdentifierPreparer_mysqlconnector` -/

/-- The configuration the preparer reads: the quote-escape character
sequence and its escaped replacement (for this dialect a backtick and a
doubled backtick, inherited from the base preparer). -/
structure MySQLIdentifierPreparer where
  escape_quote : String
  escape_to_quote : String

/-- The `_double_percents` property override: always `False`. -/
def MySQLIdentifierPreparer.double_percents
    (_P : MySQLIdentifierPreparer) : Bool := false

/-- `_escape_identifier`: `value.replace(self.escape_quote, self.escape_to_quote)`.
The dialect's `escape_quote` is a single backtick, hence non-empty. -/
def MySQLIdentifierPreparer.escape_identifier
    (P : MySQLIdentifierPreparer) (v : String) : String :=
  match P.escape_quote.data with
  | [] => v
  | p :: ps => String.mk (replaceL p ps P.escape_to_quote.data v.data)

/-- If `'%'` occurs neither in the pattern nor in the replacement, the
replacement preserves the number of percent characters. -/
theorem replaceL_count_percent (p : Char) (ps rep : List Char)
    (hp : '%' ∉ p :: ps) (hr : '%' ∉ rep) :
    ∀ s : List Char, (replaceL p ps rep s).count '%' = s.count '%' := by
  have H : ∀ n (s : List Char), s.length ≤ n →
      (replaceL p ps rep s).count '%' = s.count '%' := by
    intro n
    induction n with
    | zero =>
      intro s hs
      have : s = [] := List.eq_nil_of_length_eq_zero (Nat.le_zero.mp hs)
      subst this
      simp [replaceL]
    | succ n ih =>
      intro s hs
      cases s with
      | nil => simp [replaceL]
      | cons c rest =>
        rw [replaceL]
        by_cases h : leadsL (p :: ps) (c :: rest) = true
        · rw [if_pos h, List.count_append,
            List.count_eq_zero.mpr hr, Nat.zero_add,
            ih _ (by simp at hs ⊢; omega)]
          conv_rhs => rw [leadsL_decomp _ _ h]
          rw [List.count_append, List.count_eq_zero.mpr hp, Nat.zero_add]
          simp
        · rw [if_neg h]
          simp only [List.count_cons, ih rest (by simpa using hs)]
  exact fun s => H s.length s le_rfl

/-- C9: the preparer reports `false` for percent-doubling, and escaping is
exactly the replacement of the quote-escape sequence: if that sequence does
not occur the identifier is unchanged, and percent signs are never touched
(their count is preserved whenever the configured sequences do not
themselves contain a percent). -/
theorem c9_identifier_escaping (P : MySQLIdentifierPreparer) (v : String) :
    P.double_percents = false
    ∧ (∀ p ps, P.escape_quote.data = p :: ps →
        (P.escape_identifier v).data = replaceL p ps P.escape_to_quote.data v.data)
    ∧ (∀ p ps, P.escape_quote.data = p :: ps →
        occursIn (p :: ps) v.data = false → P.escape_identifier v = v)
    ∧ (∀ p ps, P.escape_quote.data = p :: ps →
        '%' ∉ p :: ps → '%' ∉ P.escape_to_quote.data →
        (P.escape_identifier v).data.count '%' = v.data.count '%') := by
  refine ⟨rfl, ?_, ?_, ?_⟩
  · intro p ps h
    rw [MySQLIdentifierPreparer.escape_identifier, h]
  · intro p ps h hocc
    rw [MySQLIdentifierPreparer.escape_identifier, h]
    show String.mk (replaceL p ps P.escape_to_quote.data v.data) = v
    rw [replaceL_of_not_occurs p ps _ v.data hocc]
  · intro p ps h hp hr
    rw [MySQLIdentifierPreparer.escape_identifier, h]
    show (String.mk (replaceL p ps P.escape_to_quote.data v.data)).data.count '%'
      = v.data.count '%'
    exact replaceL_count_percent p ps _ hp hr v.data

/-- C9 witness: a backtick-configured preparer leaves `tab%le` unchanged. -/
theorem c9_identifier_escaping_witness :
    (MySQLIdentifierPreparer.mk "`" "``").double_percents = false
    ∧ (MySQLIdentifierPreparer.mk "`" "``").escape_identifier "tab%le" = "tab%le" :=
  ⟨(c9_identifier_escaping _ "tab%le").1,
    (c9_identifier_escaping _ "tab%le").2.2.1 _ _ rfl (by decide)⟩

/-! ## `MySQLDialect_mysqlconnector.is_disconnect` -/

/-- The driver exception category an instance belongs to: the two
categories `is_disconnect` recognizes (`self.dbapi.OperationalError`,
`self.dbapi.InterfaceError`) or any other class. -/
inductive ExcCategory where
  | operationalError
  | interfaceError
  | other
deriving DecidableEq

/-- A driver exception as `is_disconnect` observes it: its class category,
its `errno` attribute (`none` when the attribute is absent, in which case
the access raises `AttributeError`), and its `str(e)` rendering. -/
structure Exc where
  category : ExcCategory
  errno : Option Int
  msg : String

/-- The fixed fatal error-code tuple of `is_disconnect`. -/
def errnos : List Int := [2006, 2013, 2014, 2045, 2055, 2048]

/-- `is_disconnect`: for a recognized exception category, `e.errno in errnos
or "MySQL Connection not available." in str(e) or "Connection to MySQL is
not available" in str(e)`; otherwise `False`. The unguarded `e.errno`
attribute access raises when the attribute is absent, modelled as
`Except.error`. -/
def is_disconnect (e : Exc) : Except String Bool :=
  if e.category = ExcCategory.operationalError
      ∨ e.category = ExcCategory.interfaceError then
    match e.errno with
    | none => .error "AttributeError: errno"
    | some n =>
        .ok (decide (n ∈ errnos)
          || occursIn "MySQL Connection not available.".data e.msg.data
          || occursIn "Connection to MySQL is not available".data e.msg.data)
  else .ok false

/-- C1: for a recognized-category exception carrying an error code, the
classifier answers true exactly when the code is one of
2006/2013/2014/2045/2055/2048 or the message contains one of the two
connection-unavailable phrases; any other category yields false. -/
theorem c1_disconnect_classification (e : Exc) :
    ((e.category = ExcCategory.operationalError
        ∨ e.category = ExcCategory.interfaceError) →
      ∀ n, e.errno = some n →
        (is_disconnect e = .ok true ↔
          (n ∈ errnos
            ∨ occursIn "MySQL Connection not available.".data e.msg.data = true
            ∨ occursIn "Connection to MySQL is not available".data e.msg.data = true)))
    ∧ (e.category = ExcCategory.other → is_disconnect e = .ok false) := by
  constructor
  · intro hrec n hn
    rw [is_disconnect, if_pos hrec, hn]
    simp [Bool.or_eq_true, or_assoc]
  · intro hother
    rw [is_disconnect, if_neg]
    rintro (h | h) <;> rw [hother] at h <;> exact ExcCategory.noConfusion h

/-- C1 witness: an operational error with code 2006 classifies as a
disconnect; an unrecognized category with the same code does not. -/
theorem c1_disconnect_classification_witness :
    is_disconnect ⟨.operationalError, some 2006, ""⟩ = .ok true
    ∧ is_disconnect ⟨.other, some 2006, ""⟩ = .ok false :=
  ⟨((c1_disconnect_classification _).1 (Or.inl rfl) 2006 rfl).mpr
      (Or.inl (by decide)),
    (c1_disconnect_classification _).2 rfl⟩

/-- C6: evaluating the classifier on a recognized-category exception whose
`errno` attribute is absent: the unguarded `e.errno` access raises instead
of degrading to `false`, even though the message matches a known phrase. -/
theorem c6_errno_access_raises :
    is_disconnect ⟨.operationalError, none, "MySQL Connection not available."⟩
      = .error "AttributeError: errno" := rfl

/-! ## `MySQLDialect_mysqlconnector.create_connect_args`

The option mapping after `url.translate_connect_args` / `opts.update(url.query)`
is the input; values are strings (from the URL query), booleans or integers. -/

/-- A connection-option value: a raw string, a boolean, or an integer. -/
inductive Val where
  | str : String → Val
  | bool : Bool → Val
  | int : Int → Val
deriving DecidableEq

/-- The scalar kind an option is declared with in `create_connect_args`. -/
inductive Kind where
  | bool
  | int
deriving DecidableEq

/-- The option mapping, ordered as a Python `dict`. -/
abbrev Options := List (String × Val)

/-- `opts.get(key)` / `key in opts`. -/
def lookupOpt : Options → String → Option Val
  | [], _ => none
  | (k1, v) :: rest, key => if k1 = key then some v else lookupOpt rest key

/-- `opts[key] = v`: replace the existing entry, else append. -/
def setKey : Options → String → Val → Options
  | [], key, v => [(key, v)]
  | (k1, v1) :: rest, key, v =>
    if k1 = key then (k1, v) :: rest else (k1, v1) :: setKey rest key v

/-- Modelled from the spec: the boolean coercion of `ConnectionOptionCoercer`
("boolean: recognizes common truthy/falsy string forms") — `util.asbool` is
outside this excerpt. Case-insensitive true/yes/on/y/t/1 and
false/no/off/n/f/0; anything else is unrecognized. -/
def asbool (s : String) : Option Bool :=
  let t := s.data.map lowerChar
  if t = "true".data ∨ t = "yes".data ∨ t = "on".data
      ∨ t = "y".data ∨ t = "t".data ∨ t = "1".data then some true
  else if t = "false".data ∨ t = "no".data ∨ t = "off".data
      ∨ t = "n".data ∨ t = "f".data ∨ t = "0".data then some false
  else none

/-- Modelled from the spec: one value coercion of `util.coerce_kw_type`
(outside this excerpt): a value already of the declared kind is kept, a
string is parsed (configuration error when unparseable), and numeric/boolean
cross-coercions follow Python (`asbool(n)` is `n != 0`, `int(b)` is 0/1). -/
def coerceVal : Kind → Val → Except String Val
  | .bool, .bool b => .ok (.bool b)
  | .bool, .str s =>
    match asbool s with
    | some b => .ok (.bool b)
    | none => .error ("String is not true/false: " ++ s)
  | .bool, .int n => .ok (.bool (decide (n ≠ 0)))
  | .int, .int n => .ok (.int n)
  | .int, .str s =>
    match parseIntL s.data with
    | some n => .ok (.int n)
    | none => .error ("invalid literal for int: " ++ s)
  | .int, .bool b => .ok (.int (if b then 1 else 0))

/-- Modelled from the spec: `util.coerce_kw_type(opts, key, type_)` (outside
this excerpt) — coerce `opts[key]` in place to the declared kind when the key
is present, leave the mapping untouched when absent. -/
def coerce_kw_type (opts : Options) (key : String) (k : Kind) :
    Except String Options :=
  match lookupOpt opts key with
  | none => .ok opts
  | some v =>
    match coerceVal k v with
    | .error m => .error m
    | .ok w => .ok (setKey opts key w)

/-- The seventeen `coerce_kw_type` calls of `create_connect_args`, in source
order. -/
def declaredSchema : List (String × Kind) :=
  [("allow_local_infile", .bool),
   ("autocommit", .bool),
   ("buffered", .bool),
   ("client_flag", .int),
   ("compress", .bool),
   ("connection_timeout", .int),
   ("connect_timeout", .int),
   ("consume_results", .bool),
   ("force_ipv6", .bool),
   ("get_warnings", .bool),
   ("pool_reset_session", .bool),
   ("pool_size", .int),
   ("raise_on_warnings", .bool),
   ("raw", .bool),
   ("ssl_verify_cert", .bool),
   ("use_pure", .bool),
   ("use_unicode", .bool)]

/-- The declared option names. -/
def schemaNames : List String := declaredSchema.map Prod.fst

/-- The sequential execution of the `coerce_kw_type` calls; the first raised
configuration error aborts `create_connect_args`. -/
def coerceAll : List (String × Kind) → Options → Except String Options
  | [], opts => .ok opts
  | (key, k) :: rest, opts =>
    match coerce_kw_type opts key k with
    | .error m => .error m
    | .ok opts2 => coerceAll rest opts2

/-- `opts.setdefault("buffered", True)`. -/
def setdefaultBuffered (opts : Options) : Options :=
  match lookupOpt opts "buffered" with
  | some _ => opts
  | none => opts ++ [("buffered", Val.bool true)]

/-- The guarded `ClientFlag` merge of `create_connect_args`. The parameter
is `none` when `self.dbapi is None` or the `ClientFlag` import raises
(`except Exception: pass`), else `some (default, FOUND_ROWS)` for
`ClientFlag.get_default()` and `ClientFlag.FOUND_ROWS`. A string-valued
`client_flags` entry makes `client_flags |= ClientFlag.FOUND_ROWS` raise
`TypeError`, which the same handler swallows; a boolean follows Python
(`True | f` computes on 0/1). -/
def mergeClientFlags : Option (Int × Int) → Options → Options
  | none, opts => opts
  | some (dflt, foundRows), opts =>
    match lookupOpt opts "client_flags" with
    | none => setKey opts "client_flags" (.int (Int.lor dflt foundRows))
    | some (.int n) => setKey opts "client_flags" (.int (Int.lor n foundRows))
    | some (.bool b) =>
        setKey opts "client_flags" (.int (Int.lor (if b then 1 else 0) foundRows))
    | some (.str _) => opts

/-- `create_connect_args` after the URL fields are merged into `opts`:
the seventeen coercions, `opts.setdefault("buffered", True)`, the guarded
client-flag merge, and the result pair `([], opts)`. -/
def create_connect_args (cfl : Option (Int × Int)) (opts : Options) :
    Except String (List Val × Options) :=
  match coerceAll declaredSchema opts with
  | .error m => .error m
  | .ok o => .ok ([], mergeClientFlags cfl (setdefaultBuffered o))

/-! ## Lemmas about the option pipeline -/

theorem lookupOpt_setKey_self (opts : Options) (key : String) (v : Val) :
    lookupOpt (setKey opts key v) key = some v := by
  induction opts with
  | nil => simp [setKey, lookupOpt]
  | cons e rest ih =>
    obtain ⟨k1, v1⟩ := e
    rw [setKey]
    by_cases h : k1 = key
    · rw [if_pos h, lookupOpt, if_pos h]
    · rw [if_neg h, lookupOpt, if_neg h, ih]

theorem lookupOpt_setKey_ne (opts : Options) (key key2 : String) (v : Val)
    (h : key2 ≠ key) :
    lookupOpt (setKey opts key v) key2 = lookupOpt opts key2 := by
  induction opts with
  | nil =>
    simp only [setKey, lookupOpt]
    rw [if_neg (fun hh => h hh.symm)]
  | cons e rest ih =>
    obtain ⟨k1, v1⟩ := e
    rw [setKey]
    by_cases h1 : k1 = key
    · have h2 : ¬ k1 = key2 := fun hh => h (hh ▸ h1 ▸ rfl)
      rw [if_pos h1, lookupOpt, if_neg h2, lookupOpt, if_neg h2]
    · rw [if_neg h1, lookupOpt, lookupOpt, ih]

theorem lookupOpt_append_none (a b : Options) (key : String)
    (h : lookupOpt a key = none) :
    lookupOpt (a ++ b) key = lookupOpt b key := by
  induction a with
  | nil => simp
  | cons e rest ih =>
    obtain ⟨k1, v1⟩ := e
    rw [lookupOpt] at h
    by_cases h1 : k1 = key
    · rw [if_pos h1] at h; exact absurd h (by simp)
    · rw [if_neg h1] at h
      rw [List.cons_append, lookupOpt, if_neg h1, ih h]

theorem lookupOpt_append_some (a b : Options) (key : String) (v : Val)
    (h : lookupOpt a key = some v) :
    lookupOpt (a ++ b) key = some v := by
  induction a with
  | nil => simp [lookupOpt] at h
  | cons e rest ih =>
    obtain ⟨k1, v1⟩ := e
    rw [lookupOpt] at h
    by_cases h1 : k1 = key
    · rw [if_pos h1] at h
      rw [List.cons_append, lookupOpt, if_pos h1]; exact h
    · rw [if_neg h1] at h
      rw [List.cons_append, lookupOpt, if_neg h1, ih h]

/-- Whether an `Except` computation returned normally. -/
def okb {α : Type} : Except String α → Bool
  | .ok _ => true
  | .error _ => false

theorem coerce_kw_ok_ne {opts opts2 : Options} {key : String} {k : Kind}
    (h : coerce_kw_type opts key k = .ok opts2) {key2 : String}
    (hne : key2 ≠ key) :
    lookupOpt opts2 key2 = lookupOpt opts key2 := by
  cases hl : lookupOpt opts key with
  | none =>
    simp only [coerce_kw_type, hl, Except.ok.injEq] at h
    subst h
    rfl
  | some v =>
    cases hc : coerceVal k v with
    | error m =>
      simp only [coerce_kw_type, hl, hc] at h
      cases h
    | ok w =>
      simp only [coerce_kw_type, hl, hc, Except.ok.injEq] at h
      subst h
      exact lookupOpt_setKey_ne opts key key2 w hne

theorem coerce_kw_preserves_none {opts opts2 : Options} {key : String}
    {k : Kind} (h : coerce_kw_type opts key k = .ok opts2) {key2 : String}
    (h2 : lookupOpt opts key2 = none) : lookupOpt opts2 key2 = none := by
  by_cases he : key2 = key
  · subst he
    rw [coerce_kw_type, h2] at h
    cases h
    exact h2
  · rw [coerce_kw_ok_ne h he]
    exact h2

theorem coerceAll_ok_notmem {sch : List (String × Kind)} :
    ∀ {opts opts2 : Options}, coerceAll sch opts = .ok opts2 →
      ∀ {key : String}, key ∉ sch.map Prod.fst →
        lookupOpt opts2 key = lookupOpt opts key := by
  induction sch with
  | nil =>
    intro opts opts2 h key _
    cases h
    rfl
  | cons e rest ih =>
    obtain ⟨k1, t1⟩ := e
    intro opts opts2 h key hnm
    rw [coerceAll] at h
    simp only [List.map_cons, List.mem_cons] at hnm
    push_neg at hnm
    cases hc : coerce_kw_type opts k1 t1 with
    | error m => rw [hc] at h; cases h
    | ok o1 =>
      rw [hc] at h
      rw [ih h hnm.2, coerce_kw_ok_ne hc hnm.1]

theorem coerceAll_preserves_none {sch : List (String × Kind)} :
    ∀ {opts opts2 : Options}, coerceAll sch opts = .ok opts2 →
      ∀ {key : String}, lookupOpt opts key = none →
        lookupOpt opts2 key = none := by
  induction sch with
  | nil =>
    intro opts opts2 h key h2
    cases h
    exact h2
  | cons e rest ih =>
    obtain ⟨k1, t1⟩ := e
    intro opts opts2 h key h2
    rw [coerceAll] at h
    cases hc : coerce_kw_type opts k1 t1 with
    | error m => rw [hc] at h; cases h
    | ok o1 =>
      rw [hc] at h
      exact ih h (coerce_kw_preserves_none hc h2)

theorem coerceAll_mem_coerced {sch : List (String × Kind)} :
    ∀ {opts opts2 : Options} {key : String} {k : Kind} {v w : Val},
      (sch.map Prod.fst).Nodup → (key, k) ∈ sch →
      lookupOpt opts key = some v → coerceVal k v = .ok w →
      coerceAll sch opts = .ok opts2 → lookupOpt opts2 key = some w := by
  induction sch with
  | nil => intro _ _ _ _ _ _ _ hmem _ _ _; cases hmem
  | cons e rest ih =>
    obtain ⟨k1, t1⟩ := e
    intro opts opts2 key k v w hnd hmem hv hw h
    rw [coerceAll] at h
    simp only [List.map_cons, List.nodup_cons] at hnd
    rcases List.mem_cons.mp hmem with heq | hmem2
    · cases heq
      simp only [coerce_kw_type, hv, hw] at h
      have hset : lookupOpt (setKey opts k1 w) k1 = some w :=
        lookupOpt_setKey_self opts k1 w
      rw [coerceAll_ok_notmem h hnd.1, hset]
    · have hne : k1 ≠ key := by
        intro hc
        exact hnd.1 (hc ▸ List.mem_map.mpr ⟨(key, k), hmem2, rfl⟩)
      cases hc : coerce_kw_type opts k1 t1 with
      | error m => rw [hc] at h; cases h
      | ok o1 =>
        rw [hc] at h
        have hv1 : lookupOpt o1 key = some v := by
          rw [coerce_kw_ok_ne hc (fun hx => hne hx.symm)]; exact hv
        exact ih hnd.2 hmem2 hv1 hw h

theorem coerceAll_mem_error {sch : List (String × Kind)} :
    ∀ {opts : Options} {key : String} {k : Kind} {v : Val} {m : String},
      (sch.map Prod.fst).Nodup → (key, k) ∈ sch →
      lookupOpt opts key = some v → coerceVal k v = .error m →
      okb (coerceAll sch opts) = false := by
  induction sch with
  | nil => intro _ _ _ _ _ _ hmem _ _; cases hmem
  | cons e rest ih =>
    obtain ⟨k1, t1⟩ := e
    intro opts key k v m hnd hmem hv hw
    rw [coerceAll]
    simp only [List.map_cons, List.nodup_cons] at hnd
    rcases List.mem_cons.mp hmem with heq | hmem2
    · cases heq
      simp only [coerce_kw_type, hv, hw]
      rfl
    · have hne : k1 ≠ key := by
        intro hc
        exact hnd.1 (hc ▸ List.mem_map.mpr ⟨(key, k), hmem2, rfl⟩)
      cases hc : coerce_kw_type opts k1 t1 with
      | error m2 => rfl
      | ok o1 =>
        have hv1 : lookupOpt o1 key = some v := by
          rw [coerce_kw_ok_ne hc (fun hx => hne hx.symm)]; exact hv
        exact ih hnd.2 hmem2 hv1 hw

theorem setdefaultBuffered_ne (opts : Options) {key : String}
    (h : key ≠ "buffered") :
    lookupOpt (setdefaultBuffered opts) key = lookupOpt opts key := by
  rw [setdefaultBuffered]
  cases hb : lookupOpt opts "buffered" with
  | some v => rfl
  | none =>
    cases hk : lookupOpt opts key with
    | some v => exact lookupOpt_append_some _ _ _ _ hk
    | none =>
      rw [lookupOpt_append_none _ _ _ hk, lookupOpt,
        if_neg (fun hx => h hx.symm), lookupOpt]

theorem setdefaultBuffered_present {opts : Options} {v : Val}
    (h : lookupOpt opts "buffered" = some v) :
    setdefaultBuffered opts = opts := by
  rw [setdefaultBuffered, h]

theorem setdefaultBuffered_absent {opts : Options}
    (h : lookupOpt opts "buffered" = none) :
    lookupOpt (setdefaultBuffered opts) "buffered" = some (.bool true) := by
  rw [setdefaultBuffered, h, lookupOpt_append_none _ _ _ h, lookupOpt, if_pos rfl]

theorem mergeClientFlags_ne (cfl : Option (Int × Int)) (opts : Options)
    {key : String} (h : key ≠ "client_flags") :
    lookupOpt (mergeClientFlags cfl opts) key = lookupOpt opts key := by
  cases cfl with
  | none => rfl
  | some df =>
    obtain ⟨d, f⟩ := df
    rw [mergeClientFlags]
    cases hc : lookupOpt opts "client_flags" with
    | none => exact lookupOpt_setKey_ne _ _ _ _ h
    | some v =>
      cases v with
      | str s => rfl
      | bool b => exact lookupOpt_setKey_ne _ _ _ _ h
      | int n => exact lookupOpt_setKey_ne _ _ _ _ h

theorem schemaNames_nodup : schemaNames.Nodup := by decide

theorem schema_fst_ne_client_flags :
    ∀ p ∈ declaredSchema, p.1 ≠ "client_flags" := by decide

/-! ## Claim theorems for `create_connect_args` -/

/-- C4 (amended): whenever `create_connect_args` returns, each declared key
present in the input with a coercible value appears coerced in the output;
every key outside the declared schema other than `buffered` and the
`client_flags` key (which the capability merge may add or update) keeps its
input value; and `buffered=True` is injected when `buffered` was absent. -/
theorem c4_option_coercion (cfl : Option (Int × Int)) (opts : Options)
    (args : List Val) (res : Options)
    (h : create_connect_args cfl opts = .ok (args, res)) :
    (∀ key, key ∉ schemaNames → key ≠ "buffered" → key ≠ "client_flags" →
      lookupOpt res key = lookupOpt opts key)
    ∧ (∀ key k v w, (key, k) ∈ declaredSchema → lookupOpt opts key = some v →
        coerceVal k v = .ok w → lookupOpt res key = some w)
    ∧ (lookupOpt opts "buffered" = none →
        lookupOpt res "buffered" = some (.bool true)) := by
  rw [create_connect_args] at h
  cases hc : coerceAll declaredSchema opts with
  | error m => rw [hc] at h; cases h
  | ok o =>
    rw [hc] at h
    simp only [Except.ok.injEq, Prod.mk.injEq] at h
    obtain ⟨-, rfl⟩ := h
    refine ⟨?_, ?_, ?_⟩
    · intro key hnm hb hcf
      rw [mergeClientFlags_ne cfl _ hcf, setdefaultBuffered_ne _ hb,
        coerceAll_ok_notmem hc hnm]
    · intro key k v w hmem hv hw
      have hcf : key ≠ "client_flags" := schema_fst_ne_client_flags (key, k) hmem
      have ho : lookupOpt o key = some w :=
        coerceAll_mem_coerced schemaNames_nodup hmem hv hw hc
      rw [mergeClientFlags_ne cfl _ hcf]
      by_cases hb : key = "buffered"
      · subst hb
        rw [setdefaultBuffered_present ho]
        exact ho
      · rw [setdefaultBuffered_ne _ hb]
        exact ho
    · intro hbn
      have ho : lookupOpt o "buffered" = none := coerceAll_preserves_none hc hbn
      rw [mergeClientFlags_ne cfl _ (by decide)]
      exact setdefaultBuffered_absent ho

/-- C4 witness: on the spec's example input, `autocommit` comes out boolean,
`pool_size` integral, `unknown_opt` untouched and `buffered=True` injected. -/
theorem c4_option_coercion_witness :
    lookupOpt [("autocommit", Val.bool true), ("pool_size", Val.int 5),
      ("unknown_opt", Val.str "foo"), ("buffered", Val.bool true)]
      "unknown_opt" = some (Val.str "foo")
    ∧ lookupOpt [("autocommit", Val.bool true), ("pool_size", Val.int 5),
        ("unknown_opt", Val.str "foo"), ("buffered", Val.bool true)]
        "autocommit" = some (Val.bool true)
    ∧ lookupOpt [("autocommit", Val.bool true), ("pool_size", Val.int 5),
        ("unknown_opt", Val.str "foo"), ("buffered", Val.bool true)]
        "buffered" = some (Val.bool true) :=
  ⟨(c4_option_coercion none
      [("autocommit", Val.str "true"), ("pool_size", Val.str "5"),
        ("unknown_opt", Val.str "foo")] [] _ rfl).1
      "unknown_opt" (by decide) (by decide) (by decide),
    (c4_option_coercion none
      [("autocommit", Val.str "true"), ("pool_size", Val.str "5"),
        ("unknown_opt", Val.str "foo")] [] _ rfl).2.1
      "autocommit" Kind.bool (Val.str "true") (Val.bool true)
      (by decide) rfl rfl,
    (c4_option_coercion none
      [("autocommit", Val.str "true"), ("pool_size", Val.str "5"),
        ("unknown_opt", Val.str "foo")] [] _ rfl).2.2 rfl⟩

/-- C4 counterexample: `client_flags` is outside the declared schema, yet
with the driver flag lookup available (`default=0`, `FOUND_ROWS=2`) its
input value `0` comes back changed to `2`, so unlisted keys are not all
left unchanged. -/
theorem c4_unlisted_key_changed :
    create_connect_args (some (0, 2)) [("client_flags", Val.int 0)]
      = .ok ([], [("client_flags", Val.int 2), ("buffered", Val.bool true)])
    ∧ "client_flags" ∉ schemaNames
    ∧ lookupOpt [("client_flags", Val.int 2), ("buffered", Val.bool true)]
        "client_flags"
      ≠ lookupOpt [("client_flags", Val.int 0)] "client_flags" :=
  ⟨rfl, by decide, by decide⟩

/-- C5: an input whose declared-kind key holds an uncoercible value makes
`create_connect_args` fail with the configuration error: no argument pair
is ever returned. -/
theorem c5_malformed_value_errors (cfl : Option (Int × Int)) (opts : Options)
    (key : String) (k : Kind) (v : Val) (m : String)
    (hmem : (key, k) ∈ declaredSchema) (hv : lookupOpt opts key = some v)
    (hw : coerceVal k v = .error m) :
    okb (create_connect_args cfl opts) = false := by
  have hca : okb (coerceAll declaredSchema opts) = false :=
    coerceAll_mem_error schemaNames_nodup hmem hv hw
  rw [create_connect_args]
  cases hc : coerceAll declaredSchema opts with
  | error m2 => rfl
  | ok o => rw [hc] at hca; cases hca

/-- C5 witness: `pool_size="not-a-number"` never reaches the driver. -/
theorem c5_malformed_value_errors_witness :
    okb (create_connect_args none [("pool_size", Val.str "not-a-number")])
      = false :=
  c5_malformed_value_errors none _ "pool_size" Kind.int
    (Val.str "not-a-number") ("invalid literal for int: " ++ "not-a-number")
    (by decide) rfl rfl

/-- C7 (amended): with the driver flag lookup available, `create_connect_args`
is the lookup-free run followed by the client-flag merge; the merge ors
`FOUND_ROWS` into an absent, integer or boolean `client_flags` value, is
silently skipped when the or-ing itself raises (string value), and never
touches any other key. Without the lookup, the merge is skipped entirely. -/
theorem c7_client_flag_merge (d f : Int) (opts : Options) :
    create_connect_args (some (d, f)) opts
      = (create_connect_args none opts).map
          (fun r => (r.1, mergeClientFlags (some (d, f)) r.2))
    ∧ (∀ o : Options, lookupOpt o "client_flags" = none →
        lookupOpt (mergeClientFlags (some (d, f)) o) "client_flags"
          = some (.int (Int.lor d f)))
    ∧ (∀ (o : Options) (n : Int), lookupOpt o "client_flags" = some (.int n) →
        lookupOpt (mergeClientFlags (some (d, f)) o) "client_flags"
          = some (.int (Int.lor n f)))
    ∧ (∀ (o : Options) (b : Bool), lookupOpt o "client_flags" = some (.bool b) →
        lookupOpt (mergeClientFlags (some (d, f)) o) "client_flags"
          = some (.int (Int.lor (if b then 1 else 0) f)))
    ∧ (∀ (o : Options) (s : String), lookupOpt o "client_flags" = some (.str s) →
        mergeClientFlags (some (d, f)) o = o)
    ∧ (∀ (o : Options) (key : String), key ≠ "client_flags" →
        lookupOpt (mergeClientFlags (some (d, f)) o) key = lookupOpt o key) := by
  refine ⟨?_, ?_, ?_, ?_, ?_, ?_⟩
  · rw [create_connect_args, create_connect_args]
    cases hc : coerceAll declaredSchema opts with
    | error m => rfl
    | ok o => rfl
  · intro o hl
    rw [mergeClientFlags, hl]
    exact lookupOpt_setKey_self o _ _
  · intro o n hl
    rw [mergeClientFlags, hl]
    exact lookupOpt_setKey_self o _ _
  · intro o b hl
    rw [mergeClientFlags, hl]
    exact lookupOpt_setKey_self o _ _
  · intro o s hl
    rw [mergeClientFlags, hl]
  · intro o key hk
    exact mergeClientFlags_ne _ o hk

/-- C7 witness: on an empty mapping with `default=0`, `FOUND_ROWS=2`, the
merge installs `client_flags = 0 | 2`. -/
theorem c7_client_flag_merge_witness :
    lookupOpt (mergeClientFlags (some (0, 2)) []) "client_flags"
      = some (.int (Int.lor 0 2)) :=
  (c7_client_flag_merge 0 2 []).2.1 [] rfl

/-- C7 counterexample: the flag lookup succeeds (`some (0, 2)`) yet a
string-valued `client_flags` comes through `create_connect_args` without
any bit merged: the `|=` raises `TypeError`, which the same guard swallows. -/
theorem c7_string_flags_not_merged :
    create_connect_args (some (0, 2)) [("client_flags", Val.str "8")]
      = .ok ([], [("client_flags", Val.str "8"), ("buffered", Val.bool true)])
    ∧ lookupOpt [("client_flags", Val.str "8"), ("buffered", Val.bool true)]
        "client_flags" = some (Val.str "8") :=
  ⟨rfl, by decide⟩

end MySQLDialect
